import Mathlib

/-
Verification of the session-and-relay coordination engine of the
discoflare-chat repository (Cloudflare Workers + Discord chat widget).

The definitions below are a shallow embedding of the TypeScript sources:
  - workers/main-worker/src/index.ts (worker entry, handleRelayMessage)
  - workers/main-worker/src/session.ts (ChatSession durable object)
  - workers/main-worker/src/discord.ts (DiscordClient)
  - workers/bot-relay/src/gateway.ts (DiscordGateway durable object)
Times are Nat milliseconds, JavaScript Maps and durable-object storage are
association lists, and external effects (WebSocket sends, Discord REST
calls, cross-object fetches) are reified as emitted events.
-/

namespace DiscoFlare

/-! ## Generic helpers -/

/-- JavaScript Map.set / storage.put on an association list: replace the
first binding of the key, or append a fresh binding. -/
def setKey {K V : Type} [BEq K] : List (K × V) → K → V → List (K × V)
  | [], k, v => [(k, v)]
  | (k', v') :: rest, k, v =>
    if k' == k then (k, v) :: rest else (k', v') :: setKey rest k v

/-- The last n elements of a list (JavaScript Array.slice (-n)). -/
def takeLast {α : Type} (n : Nat) (l : List α) : List α :=
  l.drop (l.length - n)

/-- Boolean prefix test on char lists. -/
def isPrefixB : List Char → List Char → Bool
  | [], _ => true
  | _ :: _, [] => false
  | a :: as, b :: bs => a == b && isPrefixB as bs

/-- Boolean substring test on char lists. -/
def containsSub (needle : List Char) : List Char → Bool
  | [] => isPrefixB needle []
  | c :: rest => isPrefixB needle (c :: rest) || containsSub needle rest

/-- JavaScript String.includes. -/
def strIncludes (haystack needle : String) : Bool :=
  containsSub needle.toList haystack.toList

/-- Split a char list at the first occurrence of the target character. -/
def splitAtChar (target : Char) : List Char → Option (List Char × List Char)
  | [] => none
  | c :: rest =>
    if c == target then some ([], rest)
    else
      match splitAtChar target rest with
      | none => none
      | some (b, a) => some (c :: b, a)

/-- A character allowed by the regex class used in isValidEmail:
anything except whitespace and the at sign. -/
def emailChar (c : Char) : Bool :=
  !(c == '@' || c.isWhitespace)

/-- True when some dot occurs at a non-final position of the list. -/
def hasDotNotLast : List Char → Bool
  | [] => false
  | [_] => false
  | c :: rest => c == '.' || hasDotNotLast rest

/-- ChatSession.isValidEmail: the email regex of session.ts,
one at sign with a nonempty local part, and a domain part containing a
dot with at least one character on each side, no whitespace anywhere. -/
def isValidEmail (email : String) : Bool :=
  match splitAtChar '@' email.toList with
  | none => false
  | some (before, after) =>
    !(before.isEmpty) && before.all emailChar &&
      after.all emailChar &&
      (match after with
       | [] => false
       | _ :: rest0 => hasDotNotLast rest0)

/-- JavaScript truthiness of an optional string field. -/
def truthyStr : Option String → Bool
  | none => false
  | some s => !(s == "")

/-- JavaScript (value or default) for an optional string, treating the
empty string as falsy. -/
def pageOrUnknown : Option String → String
  | none => "Unknown"
  | some s => if s == "" then "Unknown" else s

/-! ## Data model of the ChatSession durable object (session.ts) -/

/-- StoredMessage of types.ts: one history entry. -/
structure StoredMessage where
  author : String
  message : String
  timestamp : Nat
deriving DecidableEq, Repr

/-- SessionState of types.ts. -/
structure SessionState where
  sessionId : String
  email : String
  name : String
  threadId : String
  createdAt : Nat
  lastActivity : Nat
  messageCount : Nat
  messageHistory : List StoredMessage
deriving DecidableEq, Repr

/-- Durable-object ids: idFromName gives a named id, idFromName of a
random UUID (the per-connection session objects) is modelled as fresh. -/
inductive DOId
  | named (s : String)
  | fresh (n : Nat)
deriving DecidableEq, BEq, Repr

/-- A value in durable-object storage: either a stored session
(under a session: key) or a durable-object id (under a thread: key). -/
inductive StorageVal
  | sess (s : SessionState)
  | doref (d : DOId)
deriving DecidableEq, Repr

/-- Outbound server-to-client envelopes of types.ts. -/
inductive ServerMessage
  | ready (message sessionId : String)
  | message (m : StoredMessage)
  | error (message : String)
  | pong
deriving DecidableEq, Repr

/-- Observable actions of a ChatSession durable object: WebSocket sends
and closes, Discord REST calls, and the coordinator registration fetch. -/
inductive Emit
  | wsSend (ws : Nat) (m : ServerMessage)
  | wsClose (ws : Nat)
  | discordSend (threadId content : String)
  | discordInitial (threadId name email page : String)
  | registerThread (target : DOId) (threadId : String) (owner : DOId)
deriving DecidableEq, Repr

/-- Rate limit entry of session.ts: count and resetAt. -/
structure RateLimitEntry where
  count : Nat
  resetAt : Nat
deriving DecidableEq, Repr

/-- In-memory state of one ChatSession durable object: the sessions Map
(WebSocket handle to session), durable storage, and the rateLimits Map. -/
structure ChatDOState where
  sessions : List (Nat × SessionState)
  storage : List (String × StorageVal)
  rateLimits : List (String × RateLimitEntry)
deriving DecidableEq, Repr

def emptyDO : ChatDOState := ⟨[], [], []⟩

def RATE_LIMIT : Nat := 10
def RATE_WINDOW : Nat := 60000
def MAX_MESSAGE_LENGTH : Nat := 2000
def MAX_HISTORY : Nat := 50
def SESSION_TIMEOUT : Nat := 3600000

/-- ChatSession.checkRateLimit: returns the decision and the updated
rateLimits Map (the source mutates the Map in place). -/
def checkRateLimit (rateLimits : List (String × RateLimitEntry))
    (sessionId : String) (now : Nat) : Bool × List (String × RateLimitEntry) :=
  match rateLimits.lookup sessionId with
  | none => (true, setKey rateLimits sessionId ⟨1, now + RATE_WINDOW⟩)
  | some limit =>
    if now > limit.resetAt then
      (true, setKey rateLimits sessionId ⟨1, now + RATE_WINDOW⟩)
    else if limit.count ≥ RATE_LIMIT then
      (false, rateLimits)
    else
      (true, setKey rateLimits sessionId ⟨limit.count + 1, limit.resetAt⟩)

/-- The history push of session.ts: push, then keep only the last 50
entries when the length exceeds 50. -/
def pushHistory (h : List StoredMessage) (m : StoredMessage) : List StoredMessage :=
  let h2 := h ++ [m]
  if h2.length > MAX_HISTORY then takeLast MAX_HISTORY h2 else h2

/-- ChatSession.handleUserMessage on one WebSocket: validation, rate
limiting, Discord forward, history append, storage put. -/
def handleUserMessage (st : ChatDOState) (ws : Nat) (text : String)
    (now : Nat) : ChatDOState × List Emit :=
  match st.sessions.lookup ws with
  | none => (st, [Emit.wsSend ws (ServerMessage.error "Session not initialized")])
  | some session =>
    if text == "" then
      (st, [Emit.wsSend ws (ServerMessage.error "Invalid message")])
    else if text.length > MAX_MESSAGE_LENGTH then
      (st, [Emit.wsSend ws
        (ServerMessage.error "Message too long (max 2000 characters)")])
    else
      let rl := checkRateLimit st.rateLimits session.sessionId now
      if !rl.1 then
        ({ st with rateLimits := rl.2 },
         [Emit.wsSend ws
           (ServerMessage.error "Rate limit exceeded. Please slow down.")])
      else
        let stored : StoredMessage := ⟨session.name, text, now⟩
        let session' : SessionState :=
          { session with
              messageCount := session.messageCount + 1
              lastActivity := now
              messageHistory := pushHistory session.messageHistory stored }
        ({ st with
            rateLimits := rl.2
            sessions := setKey st.sessions ws session'
            storage := setKey st.storage ("session:" ++ session'.sessionId)
              (StorageVal.sess session') },
         [Emit.discordSend session.threadId
           ("**" ++ session.name ++ ":** " ++ text)])

/-- The delivery loop of ChatSession.receiveAgentMessage: walk the
sessions Map in order, and for every session owning the thread, send the
message, append it to history, and record a storage put. Returns the
updated sessions, the storage puts in order, and the WebSocket sends. -/
def deliverAgent (m : StoredMessage) (threadId : String) (now : Nat) :
    List (Nat × SessionState) →
      List (Nat × SessionState) × List (String × SessionState) × List Emit
  | [] => ([], [], [])
  | (ws, s) :: rest =>
    if s.threadId == threadId then
      let s' : SessionState :=
        { s with
            messageHistory := pushHistory s.messageHistory m
            lastActivity := now }
      let r := deliverAgent m threadId now rest
      ((ws, s') :: r.1, ("session:" ++ s'.sessionId, s') :: r.2.1,
        Emit.wsSend ws (ServerMessage.message m) :: r.2.2)
    else
      let r := deliverAgent m threadId now rest
      ((ws, s) :: r.1, r.2.1, r.2.2)

/-- ChatSession.receiveAgentMessage in a durable object that has no
thread mapping for the id: deliver locally to every attached session
owning the thread. -/
def receiveAgentMessageLocal (st : ChatDOState) (threadId msg author : String)
    (now : Nat) : ChatDOState × List Emit :=
  let m : StoredMessage := ⟨author, msg, now⟩
  let r := deliverAgent m threadId now st.sessions
  ({ st with
      sessions := r.1
      storage := r.2.1.foldl
        (fun sto kv => setKey sto kv.1 (StorageVal.sess kv.2)) st.storage },
   r.2.2)

/-- ChatSession.restoreSession: storage lookup, 1-hour grace check,
touch lastActivity, re-attach the WebSocket, replay the history. -/
def restoreSession (st : ChatDOState) (ws : Nat) (sessionId : String)
    (now : Nat) : Option (ChatDOState × List Emit) :=
  match st.storage.lookup ("session:" ++ sessionId) with
  | some (StorageVal.sess s) =>
    if now - s.lastActivity > SESSION_TIMEOUT then none
    else
      let s' : SessionState := { s with lastActivity := now }
      some
        ({ st with
            sessions := setKey st.sessions ws s'
            storage := setKey st.storage ("session:" ++ sessionId)
              (StorageVal.sess s') },
         Emit.wsSend ws (ServerMessage.ready "Session restored. Welcome back!"
             s.sessionId)
           :: s'.messageHistory.map (fun m => Emit.wsSend ws (ServerMessage.message m)))
  | _ => none

/-- Client init payload of types.ts; absent string fields are modelled
as the empty string, the optional ones as Option. -/
structure InitData where
  name : String
  email : String
  page : Option String
  turnstileToken : String
  sessionId : Option String
deriving DecidableEq, Repr

/-- Durable-object name of the coordinator the sessions register with
(session.ts createSession). -/
def registerName : String := "message-coordinator"

/-- Durable-object name the relay endpoint resolves
(index.ts handleRelayMessage). -/
def relayName : String := "relay-coordinator"

/-- ChatSession.createSession. The external create-or-find conversation
call is a collaborator, so the thread id it returns is a parameter, as
is the generated session UUID. Registers the thread with the
coordinator, emits the identity summary, and answers ready. -/
def createSessionDO (st : ChatDOState) (selfId : DOId) (ws : Nat)
    (data : InitData) (now : Nat) (freshSessionId threadId : String) :
    ChatDOState × List Emit :=
  let session : SessionState :=
    ⟨freshSessionId, data.email, data.name, threadId, now, now, 0, []⟩
  ({ st with
      sessions := setKey st.sessions ws session
      storage := setKey st.storage ("session:" ++ freshSessionId)
        (StorageVal.sess session) },
   [Emit.registerThread (DOId.named registerName) threadId selfId,
    Emit.discordInitial threadId data.name data.email (pageOrUnknown data.page),
    Emit.wsSend ws (ServerMessage.ready
      "Connected to support. An agent will be with you shortly." freshSessionId)])

/-- ChatSession.handleInit: field validation, email validation, the
verification-oracle outcome (turnstileOk), then restore or create. -/
def handleInit (st : ChatDOState) (selfId : DOId) (ws : Nat) (data : InitData)
    (turnstileOk : Bool) (now : Nat) (freshSessionId threadId : String) :
    ChatDOState × List Emit :=
  if data.name == "" || data.email == "" || data.turnstileToken == "" then
    (st, [Emit.wsSend ws (ServerMessage.error "Missing required fields"),
          Emit.wsClose ws])
  else if !(isValidEmail data.email) then
    (st, [Emit.wsSend ws (ServerMessage.error "Invalid email format"),
          Emit.wsClose ws])
  else if !turnstileOk then
    (st, [Emit.wsSend ws
       (ServerMessage.error "Failed to verify CAPTCHA. Please try again."),
          Emit.wsClose ws])
  else
    match data.sessionId with
    | some sid =>
      if sid == "" then createSessionDO st selfId ws data now freshSessionId threadId
      else
        match restoreSession st ws sid now with
        | some r => r
        | none => createSessionDO st selfId ws data now freshSessionId threadId
    | none => createSessionDO st selfId ws data now freshSessionId threadId

/-! ## Relay push endpoint (index.ts handleRelayMessage) and the
multi-durable-object system needed to trace a relay delivery -/

/-- Parsed JSON body of the relay POST; absent fields are none. -/
structure RelayBody where
  threadId : Option String
  message : Option String
  author : Option String
  timestamp : Option Nat
deriving DecidableEq, Repr

/-- Response of the relay endpoint. -/
inductive RelayResp
  | unauthorized
  | invalidFormat
  | ok
deriving DecidableEq, Repr

/-- HTTP status of a relay response. -/
def statusOf : RelayResp → Nat
  | RelayResp.unauthorized => 401
  | RelayResp.invalidFormat => 400
  | RelayResp.ok => 200

/-- The authentication and validation logic of handleRelayMessage:
401 unless the Authorization header equals Bearer plus the secret,
400 when threadId, message or author is missing or empty (the source
does not check timestamp), 200 with success true otherwise. -/
def relayResponse (secret : String) (authHeader : Option String)
    (body : RelayBody) : RelayResp :=
  if !(authHeader == some ("Bearer " ++ secret)) then RelayResp.unauthorized
  else if !(truthyStr body.threadId) || !(truthyStr body.message)
      || !(truthyStr body.author) then RelayResp.invalidFormat
  else RelayResp.ok

/-- The whole collection of ChatSession durable objects, keyed by id.
Getting an absent object materializes an empty one. -/
structure ChatSystem where
  dos : List (DOId × ChatDOState)
deriving DecidableEq, Repr

def getDO (sys : ChatSystem) (d : DOId) : ChatDOState :=
  (sys.dos.lookup d).getD emptyDO

def putDO (sys : ChatSystem) (d : DOId) (st : ChatDOState) : ChatSystem :=
  ⟨setKey sys.dos d st⟩

/-- System-level createSession on the durable object selfId: run
createSessionDO there and apply its coordinator registration, which the
source sends to the durable object named message-coordinator, whose
register endpoint stores the thread-to-owner mapping. -/
def sysCreateSession (sys : ChatSystem) (selfId : DOId) (ws : Nat)
    (data : InitData) (now : Nat) (freshSessionId threadId : String) :
    ChatSystem × List Emit :=
  let r := createSessionDO (getDO sys selfId) selfId ws data now
    freshSessionId threadId
  let coord := getDO sys (DOId.named registerName)
  let coord' : ChatDOState :=
    { coord with
        storage := setKey coord.storage ("thread:" ++ threadId)
          (StorageVal.doref selfId) }
  (putDO (putDO sys selfId r.1) (DOId.named registerName) coord', r.2)

/-- ChatSession.receiveAgentMessage at system level, with fuel for the
forwarding step: when the object holds a thread mapping it forwards the
call over an internal fetch to the owning object, otherwise it delivers
locally to its attached sessions. -/
def sysReceiveAgent : Nat → ChatSystem → DOId → String → String → String →
    Nat → ChatSystem × List Emit
  | 0, sys, _, _, _, _, _ => (sys, [])
  | fuel + 1, sys, selfId, threadId, msg, author, now =>
    let st := getDO sys selfId
    match st.storage.lookup ("thread:" ++ threadId) with
    | some (StorageVal.doref target) =>
      sysReceiveAgent fuel sys target threadId msg author now
    | some (StorageVal.sess _) => (sys, [])
    | none =>
      let r := receiveAgentMessageLocal st threadId msg author now
      (putDO sys selfId r.1, r.2)

/-- index.ts handleRelayMessage: authenticate and validate, then invoke
receiveAgentMessage on the durable object named relay-coordinator. -/
def sysHandleRelay (sys : ChatSystem) (secret : String)
    (authHeader : Option String) (body : RelayBody) (now : Nat) :
    RelayResp × ChatSystem × List Emit :=
  match relayResponse secret authHeader body with
  | RelayResp.unauthorized => (RelayResp.unauthorized, sys, [])
  | RelayResp.invalidFormat => (RelayResp.invalidFormat, sys, [])
  | RelayResp.ok =>
    let r := sysReceiveAgent 2 sys (DOId.named relayName)
      (body.threadId.getD "") (body.message.getD "") (body.author.getD "") now
    (RelayResp.ok, r.1, r.2)

/-- History of the session attached at handle ws on durable object d. -/
def sessionHistoryAt (sys : ChatSystem) (d : DOId) (ws : Nat) :
    List StoredMessage :=
  match (getDO sys d).sessions.lookup ws with
  | some s => s.messageHistory
  | none => []

/-! ## DiscordClient (discord.ts): thread lookup and creation -/

/-- A Discord thread as seen by findThreadByEmail: snowflake id, title,
archived flag. -/
structure DThread where
  id : Nat
  name : String
  archived : Bool
deriving DecidableEq, Repr

/-- The thread listings returned by the two Discord REST calls. -/
structure ThreadsEnv where
  active : List DThread
  archivedThreads : List DThread
deriving DecidableEq, Repr

def DISCORD_EPOCH : Nat := 1420070400000

/-- DiscordClient.getSnowflakeTimestamp. -/
def snowflakeTimestamp (id : Nat) : Nat :=
  id / 2 ^ 22 + DISCORD_EPOCH

/-- DiscordClient.isThreadRecent. -/
def isThreadRecent (now : Nat) (id : Nat) (maxDays : Nat) : Bool :=
  now - snowflakeTimestamp id < maxDays * 24 * 60 * 60 * 1000

/-- One search pass of findThreadByEmail: the first listed thread whose
title contains the email and which is younger than maxDays. -/
def firstMatchThread (email : String) (now maxDays : Nat) :
    List DThread → Option DThread
  | [] => none
  | t :: ts =>
    if strIncludes t.name email && isThreadRecent now t.id maxDays then some t
    else firstMatchThread email now maxDays ts

/-- DiscordClient.findThreadByEmail: search active threads (90-day
default), then archived public threads (90 days). -/
def findThreadByEmail (env : ThreadsEnv) (email : String) (now : Nat) :
    Option DThread :=
  match firstMatchThread email now 90 env.active with
  | some t => some t
  | none => firstMatchThread email now 90 env.archivedThreads

/-- Discord REST calls emitted by thread lookup and session creation. -/
inductive DiscordEmit
  | unarchive (threadId : Nat)
  | createThread (title : String)
  | initialMsg (threadId : Nat) (name email page : String)
deriving DecidableEq, Repr

/-- DiscordClient.findOrCreateThread: reuse a found thread (unarchiving
it when archived), otherwise create a new thread titled
Support: name - email; the id of a freshly created thread is the
collaborator-supplied freshId. -/
def findOrCreateThread (env : ThreadsEnv) (email name : String) (now : Nat)
    (freshId : Nat) : Nat × List DiscordEmit :=
  match findThreadByEmail env email now with
  | some t => (t.id, if t.archived then [DiscordEmit.unarchive t.id] else [])
  | none =>
    (freshId, [DiscordEmit.createThread ("Support: " ++ name ++ " - " ++ email)])

/-- The Discord-facing part of ChatSession.createSession: find or create
the thread, then unconditionally send the identity-summary initial
message to it. -/
def createSessionDiscord (env : ThreadsEnv) (email name page : String)
    (now : Nat) (freshId : Nat) : Nat × List DiscordEmit :=
  let r := findOrCreateThread env email name now freshId
  (r.1, r.2 ++ [DiscordEmit.initialMsg r.1 name email page])

/-! ## DiscordGateway durable object (gateway.ts) -/

/-- Payload data of the gateway frames this model distinguishes. -/
inductive GwPayloadData
  | hello (heartbeatInterval : Nat)
  | ready (sessionId : String)
  | resumed
  | messageCreate (channelId content authorName : String) (isBot : Bool)
  | nothing
deriving DecidableEq, Repr

/-- A gateway frame: opcode, data, sequence number, dispatch type. -/
structure GwPayload where
  op : Nat
  d : GwPayloadData
  s : Option Nat
  t : Option String
deriving DecidableEq, Repr

/-- In-memory state of the DiscordGateway durable object. -/
structure GatewayState where
  wsOpen : Bool
  heartbeatOn : Bool
  heartbeatIntervalMs : Option Nat
  sessionId : Option String
  sequenceNumber : Option Nat
  reconnectAttempts : Nat
  isReconnecting : Bool
deriving DecidableEq, Repr

/-- Initial state at durable-object construction. -/
def gwInit : GatewayState :=
  ⟨false, false, none, none, none, 0, false⟩

/-- Observable actions of the gateway object. -/
inductive GwOut
  | identify
  | resume (sessionId : String) (seq : Option Nat)
  | heartbeat (seq : Option Nat)
  | relayPush (threadId content author : String)
  | scheduleReconnect (delayMs : Nat)
  | reconnectNow
  | reconnectDelayed (delayMs : Nat)
deriving DecidableEq, Repr

/-- The send helper of gateway.ts drops the payload when the socket is
not open; outputs are produced only on an open socket. -/
def gwSend (st : GatewayState) (out : GwOut) : List GwOut :=
  if st.wsOpen then [out] else []

/-- DiscordGateway.handleHello: start the heartbeat at the declared
interval, then RESUME when a session id (truthy) and a sequence number
are stored, IDENTIFY otherwise. -/
def handleHello (st : GatewayState) (interval : Nat) :
    GatewayState × List GwOut :=
  let st' : GatewayState :=
    { st with heartbeatOn := true, heartbeatIntervalMs := some interval }
  match st'.sessionId, st'.sequenceNumber with
  | some sid, some n =>
    if sid == "" then (st', gwSend st' GwOut.identify)
    else (st', gwSend st' (GwOut.resume sid (some n)))
  | _, _ => (st', gwSend st' GwOut.identify)

/-- DiscordGateway.handleDispatch: READY stores the remote session id,
RESUMED is a no-op, MESSAGE_CREATE relays non-bot non-empty messages. -/
def handleDispatch (st : GatewayState) (p : GwPayload) :
    GatewayState × List GwOut :=
  match p.t with
  | some "READY" =>
    match p.d with
    | GwPayloadData.ready sid => ({ st with sessionId := some sid }, [])
    | _ => ({ st with sessionId := none }, [])
  | some "RESUMED" => (st, [])
  | some "MESSAGE_CREATE" =>
    match p.d with
    | GwPayloadData.messageCreate channelId content authorName isBot =>
      if isBot then (st, [])
      else if content == "" then (st, [])
      else (st, [GwOut.relayPush channelId content authorName])
    | _ => (st, [])
  | _ => (st, [])

/-- DiscordGateway.handleMessage: update the stored sequence number from
the frame, then branch on the opcode (10 HELLO, 0 DISPATCH,
11 HEARTBEAT_ACK, 7 RECONNECT, 9 INVALID_SESSION). -/
def handleGatewayMessage (st : GatewayState) (p : GwPayload) :
    GatewayState × List GwOut :=
  let st1 :=
    match p.s with
    | some n => { st with sequenceNumber := some n }
    | none => st
  if p.op == 10 then
    match p.d with
    | GwPayloadData.hello i => handleHello st1 i
    | _ => (st1, [])
  else if p.op == 0 then handleDispatch st1 p
  else if p.op == 11 then (st1, [])
  else if p.op == 7 then
    ({ st1 with heartbeatOn := false, wsOpen := false }, [GwOut.reconnectNow])
  else if p.op == 9 then
    ({ st1 with sessionId := none, sequenceNumber := none },
     [GwOut.reconnectDelayed 5000])
  else (st1, [])

/-- External events driving the gateway object. -/
inductive GwEvent
  | transportOpen
  | frame (p : GwPayload)
  | transportClose
  | heartbeatTick
deriving DecidableEq, Repr

/-- One step of the gateway object: the open listener resets the
attempt counter, frames go through handleMessage, the close listener
runs cleanup and scheduleReconnect with backoff
min (5000 times attempt) 60000, and a heartbeat timer tick sends a
heartbeat carrying the stored sequence number. -/
def gwStep (st : GatewayState) : GwEvent → GatewayState × List GwOut
  | GwEvent.transportOpen =>
    ({ st with wsOpen := true, reconnectAttempts := 0 }, [])
  | GwEvent.frame p => handleGatewayMessage st p
  | GwEvent.transportClose =>
    let st' : GatewayState := { st with wsOpen := false, heartbeatOn := false }
    if st.isReconnecting then (st', [])
    else
      ({ st' with reconnectAttempts := st.reconnectAttempts + 1 },
       [GwOut.scheduleReconnect (min (5000 * (st.reconnectAttempts + 1)) 60000)])
  | GwEvent.heartbeatTick =>
    if st.heartbeatOn then (st, gwSend st (GwOut.heartbeat st.sequenceNumber))
    else (st, [])

/-- Run a list of gateway events, concatenating the outputs. -/
def runGw (st : GatewayState) : List GwEvent → GatewayState × List GwOut
  | [] => (st, [])
  | e :: es =>
    let r := gwStep st e
    let r' := runGw r.1 es
    (r'.1, r.2 ++ r'.2)

/-- A HELLO frame with the given heartbeat interval. -/
def helloFrame (interval : Nat) : GwPayload :=
  ⟨10, GwPayloadData.hello interval, none, none⟩

/-- A READY dispatch frame carrying the remote session id. -/
def readyFrame (sid : String) (s : Option Nat) : GwPayload :=
  ⟨0, GwPayloadData.ready sid, s, some "READY"⟩

/-- A MESSAGE_CREATE dispatch frame. -/
def msgFrame (channelId content authorName : String) (isBot : Bool)
    (s : Option Nat) : GwPayload :=
  ⟨0, GwPayloadData.messageCreate channelId content authorName isBot, s,
    some "MESSAGE_CREATE"⟩

/-- A HEARTBEAT_ACK frame. -/
def ackFrame : GwPayload := ⟨11, GwPayloadData.nothing, none, none⟩

/-- A RECONNECT frame. -/
def reconnectFrame : GwPayload := ⟨7, GwPayloadData.nothing, none, none⟩

/-! ## Drivers over sequences of session operations -/

/-- One operation against a session: a visitor submit or an inbound
remote delivery. -/
inductive SessionOp
  | submit (text : String) (now : Nat)
  | deliverRemote (text author : String) (now : Nat)
deriving DecidableEq, Repr

/-- Run a sequence of operations against the durable object, with the
visitor attached at handle ws and owning thread tid; collects the
emitted events of each operation. -/
def runSessionOps (st : ChatDOState) (ws : Nat) (tid : String) :
    List SessionOp → ChatDOState × List (List Emit)
  | [] => (st, [])
  | op :: ops =>
    let r :=
      match op with
      | SessionOp.submit text now => handleUserMessage st ws text now
      | SessionOp.deliverRemote text author now =>
        receiveAgentMessageLocal st tid text author now
    let rest := runSessionOps r.1 ws tid ops
    (rest.1, r.2 :: rest.2)

/-- True when the emitted events contain a visible error envelope. -/
def hasError (es : List Emit) : Bool :=
  es.any fun e =>
    match e with
    | Emit.wsSend _ (ServerMessage.error _) => true
    | _ => false

/-- True when the emitted events contain a Discord message send. -/
def hasDiscordSend (es : List Emit) : Bool :=
  es.any fun e =>
    match e with
    | Emit.discordSend _ _ => true
    | _ => false

/-- The successfully applied messages of an operation sequence, read off
the per-operation emitted events: a submit is applied when it produced
no error (it then stored the text under the name of the session), a
remote delivery is always applied. -/
def appliedMsgs (name : String) :
    List SessionOp → List (List Emit) → List StoredMessage
  | [], _ => []
  | _ :: _, [] => []
  | op :: ops, es :: ess =>
    match op with
    | SessionOp.submit text now =>
      if hasError es then appliedMsgs name ops ess
      else ⟨name, text, now⟩ :: appliedMsgs name ops ess
    | SessionOp.deliverRemote text author now =>
      ⟨author, text, now⟩ :: appliedMsgs name ops ess

/-- Run a sequence of timed submits of a fixed text, collecting the
emitted events of each call. -/
def runSubmitsE (st : ChatDOState) (ws : Nat) (text : String) :
    List Nat → List (List Emit) × ChatDOState
  | [] => ([], st)
  | t :: ts =>
    let r := handleUserMessage st ws text t
    let rest := runSubmitsE r.1 ws text ts
    (r.2 :: rest.1, rest.2)

/-- Run the rate limiter alone over a list of call times. -/
def rateLimiterRun (rl : List (String × RateLimitEntry)) (sid : String) :
    List Nat → List Bool
  | [] => []
  | t :: ts =>
    let r := checkRateLimit rl sid t
    r.1 :: rateLimiterRun r.2 sid ts

/-- Modelled from the amended claim wording: a fixed 60-second window
keyed by its start time. The first accepted call opens a window; a call
more than 60 seconds after the window start opens a new one; within a
window, up to 10 calls are accepted. -/
def fixedWindowStep : Option (Nat × Nat) → Nat → Bool × Option (Nat × Nat)
  | none, t => (true, some (t, 1))
  | some (start, c), t =>
    if t > start + 60000 then (true, some (t, 1))
    else if c ≥ 10 then (false, some (start, c))
    else (true, some (start, c + 1))

/-- Run the fixed-window specification over a list of call times. -/
def fixedWindowRun : Option (Nat × Nat) → List Nat → List Bool
  | _, [] => []
  | w, t :: ts =>
    let r := fixedWindowStep w t
    r.1 :: fixedWindowRun r.2 ts

/-- Modelled from the claim wording: the number of accepted calls whose
time falls within the trailing 60-second window ending at t. -/
def countTrailing (calls : List (Nat × Bool)) (t : Nat) : Nat :=
  (calls.filter fun c => c.2 && c.1 ≤ t && t - c.1 < 60000).length

/-! ## Concrete scenario states used by the claim theorems -/

/-- Handshake data of the C1 scenario visitor. -/
def c1Init : InitData := ⟨"Alice", "a@b.c", some "/home", "tok", none⟩

/-- System after the C1 visitor handshake: the session object is the
durable object fresh 0, its thread is T, and the registration went to
the coordinator object. -/
def c1Sys : ChatSystem :=
  (sysCreateSession ⟨[]⟩ (DOId.fresh 0) 1 c1Init 1000 "S1" "T").1

/-- Result of an authenticated relay push for thread T against c1Sys. -/
def c1Relay : RelayResp × ChatSystem × List Emit :=
  sysHandleRelay c1Sys "sec" (some "Bearer sec")
    ⟨some "T", some "hi", some "agent", some 2000⟩ 2000

/-- The C2 scenario session and durable-object state. -/
def c2Session : SessionState := ⟨"S", "a@b.c", "Alice", "T", 0, 0, 0, []⟩

def c2St : ChatDOState :=
  ⟨[(1, c2Session)], [("session:S", StorageVal.sess c2Session)], []⟩

/-- Twenty submit times: one opens a window at 0, nine land late in that
window, ten more land in the next window. -/
def c2Times : List Nat :=
  [0, 59991, 59992, 59993, 59994, 59995, 59996, 59997, 59998, 59999,
   60001, 60002, 60003, 60004, 60005, 60006, 60007, 60008, 60009, 60010]

/-- Acceptance results of the twenty submits of c2Times. -/
def c2Results : List Bool :=
  ((runSubmitsE c2St 1 "hello" c2Times).1).map fun es => !(hasError es)

/-- Eleven submits within 60 seconds, then a twelfth 61 seconds after
the first. -/
def c2ScenarioTimes : List Nat :=
  [0, 1000, 2000, 3000, 4000, 5000, 6000, 7000, 8000, 9000, 10000, 61000]

/-- The stored session of the C4 scenario. -/
def c4S0 : SessionState :=
  ⟨"S", "old@x.y", "Old", "T", 0, 1000, 3, [⟨"Old", "hey", 500⟩]⟩

def c4St : ChatDOState := ⟨[], [("session:S", StorageVal.sess c4S0)], []⟩

def c4Init : InitData := ⟨"Alice", "a@b.c", none, "tok", some "S"⟩

/-- A gateway state holding a remote session id and a sequence number,
with the socket open. -/
def c6St : GatewayState := ⟨true, false, none, some "abc", some 7, 0, false⟩

/-- Gateway state after open, HELLO and READY: connected, heartbeating,
session abc at sequence 1. -/
def c7Connected : GatewayState :=
  (runGw gwInit
    [GwEvent.transportOpen, GwEvent.frame (helloFrame 30000),
     GwEvent.frame (readyFrame "abc" (some 1))]).1

/-- An existing young support thread whose title contains the email of
the C8 visitor. -/
def c8Thread : DThread := ⟨42, "Support: Bob - a@b.c", false⟩

def msPerDay : Nat := 86400000

/-- The stored session of the C10 scenario. -/
def c10S0 : SessionState := ⟨"S", "old@x.y", "Old", "T", 0, 1000, 3, []⟩

def c10St : ChatDOState := ⟨[], [("session:S", StorageVal.sess c10S0)], []⟩

/-- The session and state of the C9 witness. -/
def c9Session : SessionState := ⟨"S9", "v@e.x", "Vera", "T9", 0, 0, 0, []⟩

def c9St : ChatDOState :=
  ⟨[(1, c9Session)], [("session:S9", StorageVal.sess c9Session)], []⟩

/-- Freshly initialized durable-object state of the C3 runs: one
attached visitor with an empty history. -/
def c3Start (ws : Nat) (sid email name tid : String) (t0 : Nat) : ChatDOState :=
  ⟨[(ws, ⟨sid, email, name, tid, t0, t0, 0, []⟩)],
   [("session:" ++ sid, StorageVal.sess ⟨sid, email, name, tid, t0, t0, 0, []⟩)],
   []⟩

/-! # Theorems -/

/-! ## Helper lemmas -/

theorem lookup_setKey_self {K V : Type} [BEq K] [LawfulBEq K]
    (m : List (K × V)) (k : K) (v : V) :
    (setKey m k v).lookup k = some v := by
  induction m with
  | nil => simp [setKey, List.lookup]
  | cons kv rest ih =>
    rcases kv with ⟨k', v'⟩
    by_cases h : k' = k
    · subst h
      simp [setKey, List.lookup]
    · have hb : (k == k') = false := by simp [Ne.symm h]
      simp [setKey, List.lookup, h, hb, ih]

/-! ## C1: relay routing through the thread registry -/

/-- Claim C1 (code_bug evidence): the visitor handshake registers
thread T in the durable object named message-coordinator, yet an
authenticated relay push for T is answered 200 while delivering
nothing: the relay endpoint resolves the object named
relay-coordinator, which holds no mapping and no sessions, so the
history of the registered session stays empty and no WebSocket push is
emitted. -/
theorem C1_registry_never_resolved :
    (getDO c1Sys (DOId.named registerName)).storage.lookup "thread:T" =
      some (StorageVal.doref (DOId.fresh 0)) ∧
    sessionHistoryAt c1Sys (DOId.fresh 0) 1 = [] ∧
    c1Relay.1 = RelayResp.ok ∧
    c1Relay.2.2 = [] ∧
    sessionHistoryAt c1Relay.2.1 (DOId.fresh 0) 1 = [] := by
  decide

/-! ## C5: relay endpoint statuses -/

/-- Claim C5 counterexample: an authenticated relay push whose body
lacks the timestamp field is accepted with 200, not rejected with 400,
because handleRelayMessage never checks timestamp. -/
theorem C5_missing_timestamp_accepted :
    relayResponse "secret" (some "Bearer secret")
        ⟨some "T", some "hello", some "agent", none⟩ = RelayResp.ok ∧
    statusOf (relayResponse "secret" (some "Bearer secret")
        ⟨some "T", some "hello", some "agent", none⟩) ≠ 400 := by
  decide

/-- Claim C5 (amended): the relay push endpoint returns 401 exactly
when the Authorization header differs from Bearer secret, 400 exactly
when the header matches but threadId, message or author is missing or
empty, and 200 otherwise; the timestamp field is not validated. -/
theorem C5_relay_endpoint_statuses (secret : String)
    (authHeader : Option String) (body : RelayBody) :
    (statusOf (relayResponse secret authHeader body) = 401 ↔
      ¬ authHeader = some ("Bearer " ++ secret)) ∧
    (statusOf (relayResponse secret authHeader body) = 400 ↔
      authHeader = some ("Bearer " ++ secret) ∧
        (truthyStr body.threadId = false ∨ truthyStr body.message = false ∨
          truthyStr body.author = false)) ∧
    (statusOf (relayResponse secret authHeader body) = 200 ↔
      authHeader = some ("Bearer " ++ secret) ∧
        truthyStr body.threadId = true ∧ truthyStr body.message = true ∧
        truthyStr body.author = true) := by
  by_cases ha : authHeader = some ("Bearer " ++ secret) <;>
    cases h1 : truthyStr body.threadId <;>
    cases h2 : truthyStr body.message <;>
    cases h3 : truthyStr body.author <;>
    simp [relayResponse, statusOf, ha, h1, h2, h3]

/-! ## C9: empty and oversized submits -/

/-- Claim C9: on an initialized session, a submit of the empty string or
of a text longer than 2000 characters answers a visible error envelope,
leaves the whole durable-object state (history, messageCount,
lastActivity, rate limits) unchanged, and forwards nothing to the
external send collaborator. -/
theorem C9_invalid_submit_no_mutation (st : ChatDOState) (ws : Nat)
    (s : SessionState) (text : String) (now : Nat)
    (hs : st.sessions.lookup ws = some s)
    (hbad : text = "" ∨ text.length > MAX_MESSAGE_LENGTH) :
    handleUserMessage st ws text now =
      (st, [Emit.wsSend ws (ServerMessage.error
        (if text = "" then "Invalid message"
         else "Message too long (max 2000 characters)"))]) ∧
    hasDiscordSend (handleUserMessage st ws text now).2 = false := by
  rcases hbad with h | h
  · subst h
    refine ⟨by simp [handleUserMessage, hs], ?_⟩
    simp [handleUserMessage, hs, hasDiscordSend]
  · have hne : ¬ text = "" := by
      intro he
      rw [he] at h
      simp [MAX_MESSAGE_LENGTH] at h
    refine ⟨by simp [handleUserMessage, hs, hne, h], ?_⟩
    simp [handleUserMessage, hs, hne, h, hasDiscordSend]

/-- Claim C9 witness: the empty submit at a concrete state. -/
theorem C9_invalid_submit_no_mutation_witness :
    handleUserMessage c9St 1 "" 5 =
      (c9St, [Emit.wsSend 1 (ServerMessage.error "Invalid message")]) ∧
    hasDiscordSend (handleUserMessage c9St 1 "" 5).2 = false := by
  have h := C9_invalid_submit_no_mutation c9St 1 c9Session "" 5 rfl (Or.inl rfl)
  simpa using h

/-! ## C7: gateway reconnect behaviour -/

/-- Claim C7 counterexample: after open, HELLO and READY the gateway is
connected and heartbeating, a heartbeat tick returns the very same
state while emitting only the heartbeat (no reconnect is scheduled),
and a HEARTBEAT_ACK frame is a complete no-op; there is no
heartbeat-ack bookkeeping at all, so when acks stop the object remains
in the connected state indefinitely, contradicting the claim. -/
theorem C7_no_ack_timeout :
    c7Connected.wsOpen = true ∧ c7Connected.heartbeatOn = true ∧
    gwStep c7Connected GwEvent.heartbeatTick =
      (c7Connected, [GwOut.heartbeat (some 1)]) ∧
    gwStep c7Connected (GwEvent.frame ackFrame) = (c7Connected, []) := by
  decide

/-- Claim C7 (amended): the gateway leaves the connected state only on a
transport close (heartbeat stopped, reconnect scheduled with backoff
min (5000 times attempt) 60000) or an explicit RECONNECT frame
(heartbeat stopped, immediate reconnect); HEARTBEAT_ACK frames are
no-ops and heartbeat ticks never change the state, so no
heartbeat-ack timeout exists. -/
theorem C7_reconnect_transitions :
    (∀ st : GatewayState, st.isReconnecting = false →
      gwStep st GwEvent.transportClose =
        ({ st with
            wsOpen := false
            heartbeatOn := false
            reconnectAttempts := st.reconnectAttempts + 1 },
         [GwOut.scheduleReconnect
            (min (5000 * (st.reconnectAttempts + 1)) 60000)])) ∧
    (∀ st : GatewayState,
      gwStep st (GwEvent.frame reconnectFrame) =
        ({ st with heartbeatOn := false, wsOpen := false },
         [GwOut.reconnectNow])) ∧
    (∀ st : GatewayState, gwStep st (GwEvent.frame ackFrame) = (st, [])) ∧
    (∀ st : GatewayState, (gwStep st GwEvent.heartbeatTick).1 = st) := by
  refine ⟨?_, ?_, ?_, ?_⟩
  · intro st h
    simp [gwStep, h]
  · intro st
    simp [gwStep, handleGatewayMessage, reconnectFrame]
  · intro st
    simp [gwStep, handleGatewayMessage, ackFrame]
  · intro st
    by_cases h : st.heartbeatOn <;> simp [gwStep, h]

/-- Claim C7 witness: the close transition from the initial state. -/
theorem C7_reconnect_transitions_witness :
    gwStep gwInit GwEvent.transportClose =
      ({ gwInit with
          wsOpen := false
          heartbeatOn := false
          reconnectAttempts := gwInit.reconnectAttempts + 1 },
       [GwOut.scheduleReconnect
          (min (5000 * (gwInit.reconnectAttempts + 1)) 60000)]) := by
  exact C7_reconnect_transitions.1 gwInit rfl

/-! ## C2: rate limiting -/

/-- The in-memory rate limiter of session.ts computes exactly the
fixed-window discipline: the windows are anchored at the first accepted
call, not trailing. -/
theorem rateLimiter_matches_fixedWindow (sid : String) (ts : List Nat) :
    ∀ (rl : List (String × RateLimitEntry)) (w : Option (Nat × Nat)),
      rl.lookup sid = Option.map (fun p => ⟨p.2, p.1 + 60000⟩) w →
      rateLimiterRun rl sid ts = fixedWindowRun w ts := by
  induction ts with
  | nil =>
    intro rl w h
    simp [rateLimiterRun, fixedWindowRun]
  | cons t ts ih =>
    intro rl w h
    cases w with
    | none =>
      have h0 : rl.lookup sid = none := by simpa using h
      simp only [rateLimiterRun, fixedWindowRun, checkRateLimit,
        fixedWindowStep, h0]
      exact congrArg (List.cons true)
        (ih _ _ (by simp [lookup_setKey_self, RATE_WINDOW]))
    | some p =>
      rcases p with ⟨start, c⟩
      have h0 : rl.lookup sid = some ⟨c, start + 60000⟩ := by simpa using h
      simp only [rateLimiterRun, fixedWindowRun, checkRateLimit,
        fixedWindowStep, h0]
      by_cases hgt : t > start + 60000
      · simp only [if_pos hgt]
        exact congrArg (List.cons true)
          (ih _ _ (by simp [lookup_setKey_self, RATE_WINDOW]))
      · by_cases hc : c ≥ 10
        · simp only [if_neg hgt, if_pos hc, RATE_LIMIT]
          exact congrArg (List.cons false) (ih _ _ (by simpa using h0))
        · simp only [if_neg hgt, if_neg hc, RATE_LIMIT]
          exact congrArg (List.cons true)
            (ih _ _ (by simp [lookup_setKey_self]))

/-- Claim C2 counterexample against the trailing-window reading: over
the twenty submits of c2Times every call is accepted; in particular the
twentieth (at 60010) is accepted and forwarded to Discord although 18
calls had already been accepted inside its trailing 60-second window,
where the claim demands RateLimited as soon as more than 10 were. -/
theorem C2_trailing_window_refuted :
    c2Results.getLast? = some true ∧
    hasDiscordSend ((runSubmitsE c2St 1 "hello" c2Times).1.getLastD []) = true ∧
    countTrailing ((c2Times.take 19).zip (c2Results.take 19)) 60010 = 18 := by
  decide

/-- Claim C2 (amended): the limiter is a lazily reset fixed 60-second
window of 10 accepted messages per session (the first accepted call
opens the window), not a trailing window; the concrete scenario of the
claim still holds: of eleven submits within 60 seconds the first ten
are forwarded to Discord, the eleventh is answered RateLimited without
any Discord forward, and a twelfth 61 seconds after the first is
forwarded again. -/
theorem C2_fixed_window_rate_limit :
    (∀ (sid : String) (ts : List Nat),
      rateLimiterRun [] sid ts = fixedWindowRun none ts) ∧
    (runSubmitsE c2St 1 "hello" c2ScenarioTimes).1 =
      [[Emit.discordSend "T" "**Alice:** hello"],
       [Emit.discordSend "T" "**Alice:** hello"],
       [Emit.discordSend "T" "**Alice:** hello"],
       [Emit.discordSend "T" "**Alice:** hello"],
       [Emit.discordSend "T" "**Alice:** hello"],
       [Emit.discordSend "T" "**Alice:** hello"],
       [Emit.discordSend "T" "**Alice:** hello"],
       [Emit.discordSend "T" "**Alice:** hello"],
       [Emit.discordSend "T" "**Alice:** hello"],
       [Emit.discordSend "T" "**Alice:** hello"],
       [Emit.wsSend 1 (ServerMessage.error "Rate limit exceeded. Please slow down.")],
       [Emit.discordSend "T" "**Alice:** hello"]] := by
  constructor
  · intro sid ts
    exact rateLimiter_matches_fixedWindow sid ts [] none (by simp)
  · decide

/-! ## C6: gateway resume versus identify -/

/-- Claim C6: on HELLO the gateway answers RESUME with the stored
remote session id and last observed sequence number whenever both are
known (and the session id nonempty), and IDENTIFY exactly when the
session id is unknown (or empty) or no sequence number is stored; a
transport close preserves both, so after HELLO, READY and a close the
next HELLO is answered by RESUME with the stored id and sequence, as
the concrete run shows. -/
theorem C6_gateway_resume_after_close :
    (∀ (st : GatewayState) (i : Nat),
      st.wsOpen = true →
      (∀ (sid : String) (n : Nat),
        st.sessionId = some sid → sid ≠ "" → st.sequenceNumber = some n →
        (handleGatewayMessage st (helloFrame i)).2 =
          [GwOut.resume sid (some n)]) ∧
      ((handleGatewayMessage st (helloFrame i)).2 = [GwOut.identify] ↔
        truthyStr st.sessionId = false ∨ st.sequenceNumber = none)) ∧
    (∀ st : GatewayState,
      (gwStep st GwEvent.transportClose).1.sessionId = st.sessionId ∧
      (gwStep st GwEvent.transportClose).1.sequenceNumber = st.sequenceNumber) ∧
    (runGw gwInit
        [GwEvent.transportOpen, GwEvent.frame (helloFrame 30000),
         GwEvent.frame (readyFrame "abc" (some 1)), GwEvent.transportClose,
         GwEvent.transportOpen, GwEvent.frame (helloFrame 30000)]).2 =
      [GwOut.identify, GwOut.scheduleReconnect 5000,
       GwOut.resume "abc" (some 1)] := by
  refine ⟨?_, ?_, ?_⟩
  · intro st i hw
    constructor
    · intro sid n hs hne hn
      simp [handleGatewayMessage, helloFrame, handleHello, hs, hn, hne,
        gwSend, hw]
    · cases hs : st.sessionId with
      | none =>
        simp [handleGatewayMessage, helloFrame, handleHello, hs, gwSend, hw,
          truthyStr]
      | some sid =>
        by_cases hne : sid = ""
        · subst hne
          cases hn : st.sequenceNumber <;>
            simp [handleGatewayMessage, helloFrame, handleHello, hs, hn,
              gwSend, hw, truthyStr]
        · cases hn : st.sequenceNumber <;>
            simp [handleGatewayMessage, helloFrame, handleHello, hs, hn, hne,
              gwSend, hw, truthyStr]
  · intro st
    by_cases h : st.isReconnecting <;> simp [gwStep, h]
  · decide

/-- Claim C6 witness: a state holding session abc at sequence 7 with an
open socket answers HELLO with RESUME abc 7. -/
theorem C6_gateway_resume_after_close_witness :
    (handleGatewayMessage c6St (helloFrame 30000)).2 =
      [GwOut.resume "abc" (some 7)] := by
  exact ((C6_gateway_resume_after_close.1 c6St 30000 rfl).1 "abc" 7 rfl
    (by decide) rfl)

/-! ## C4: resume inside the 1-hour grace window -/

/-- Claim C4: a validated handshake carrying a resume session id
re-attaches to the stored session and replays its stored history when
now minus lastActivity is within the 1-hour grace window, and when the
stored session is more than 1 hour stale it instead creates a fresh
session carrying the newly generated session id with empty history. -/
theorem C4_resume_grace_window
    (st : ChatDOState) (selfId : DOId) (ws : Nat) (data : InitData)
    (now : Nat) (fid tid sid : String) (s : SessionState)
    (hn : data.name ≠ "") (he : data.email ≠ "")
    (hv : isValidEmail data.email = true) (ht : data.turnstileToken ≠ "")
    (hsid : data.sessionId = some sid) (hne : sid ≠ "")
    (hst : st.storage.lookup ("session:" ++ sid) = some (StorageVal.sess s)) :
    (now - s.lastActivity ≤ SESSION_TIMEOUT →
      handleInit st selfId ws data true now fid tid =
        ({ st with
            sessions := setKey st.sessions ws { s with lastActivity := now }
            storage := setKey st.storage ("session:" ++ sid)
              (StorageVal.sess { s with lastActivity := now }) },
         Emit.wsSend ws (ServerMessage.ready "Session restored. Welcome back!"
             s.sessionId)
           :: s.messageHistory.map
               (fun m => Emit.wsSend ws (ServerMessage.message m))) ∧
      (handleInit st selfId ws data true now fid tid).1.sessions.lookup ws =
        some { s with lastActivity := now }) ∧
    (now - s.lastActivity > SESSION_TIMEOUT →
      handleInit st selfId ws data true now fid tid =
        createSessionDO st selfId ws data now fid tid ∧
      (handleInit st selfId ws data true now fid tid).1.sessions.lookup ws =
        some ⟨fid, data.email, data.name, tid, now, now, 0, []⟩ ∧
      Emit.wsSend ws (ServerMessage.ready
          "Connected to support. An agent will be with you shortly." fid) ∈
        (handleInit st selfId ws data true now fid tid).2) := by
  constructor
  · intro hgrace
    have hres : restoreSession st ws sid now =
        some ({ st with
            sessions := setKey st.sessions ws { s with lastActivity := now }
            storage := setKey st.storage ("session:" ++ sid)
              (StorageVal.sess { s with lastActivity := now }) },
          Emit.wsSend ws (ServerMessage.ready "Session restored. Welcome back!"
              s.sessionId)
            :: s.messageHistory.map
                (fun m => Emit.wsSend ws (ServerMessage.message m))) := by
      simp [restoreSession, hst]
      omega
    have hmain : handleInit st selfId ws data true now fid tid =
        ({ st with
            sessions := setKey st.sessions ws { s with lastActivity := now }
            storage := setKey st.storage ("session:" ++ sid)
              (StorageVal.sess { s with lastActivity := now }) },
         Emit.wsSend ws (ServerMessage.ready "Session restored. Welcome back!"
             s.sessionId)
           :: s.messageHistory.map
               (fun m => Emit.wsSend ws (ServerMessage.message m))) := by
      simp [handleInit, hn, he, ht, hv, hsid, hne, hres]
    refine ⟨hmain, ?_⟩
    rw [hmain]
    exact lookup_setKey_self st.sessions ws { s with lastActivity := now }
  · intro hstale
    have hres : restoreSession st ws sid now = none := by
      simp [restoreSession, hst, hstale]
    have hmain : handleInit st selfId ws data true now fid tid =
        createSessionDO st selfId ws data now fid tid := by
      simp [handleInit, hn, he, ht, hv, hsid, hne, hres]
    refine ⟨hmain, ?_, ?_⟩
    · rw [hmain]
      exact lookup_setKey_self st.sessions ws
        ⟨fid, data.email, data.name, tid, now, now, 0, []⟩
    · rw [hmain]
      simp [createSessionDO]

/-- Claim C4 witness: a resume 1 second inside the grace window at a
concrete stored session. -/
theorem C4_resume_grace_window_witness :
    handleInit c4St (DOId.fresh 0) 1 c4Init true 2000 "F" "T2" =
      ({ c4St with
          sessions := setKey c4St.sessions 1 { c4S0 with lastActivity := 2000 }
          storage := setKey c4St.storage ("session:" ++ "S")
            (StorageVal.sess { c4S0 with lastActivity := 2000 }) },
       Emit.wsSend 1 (ServerMessage.ready "Session restored. Welcome back!"
           c4S0.sessionId)
         :: c4S0.messageHistory.map
             (fun m => Emit.wsSend 1 (ServerMessage.message m))) := by
  exact ((C4_resume_grace_window c4St (DOId.fresh 0) 1 c4Init 2000 "F" "T2"
    "S" c4S0 (by decide) (by decide) (by decide) (by decide) rfl (by decide)
    (by decide)).1 (by decide)).1

/-! ## C10: resumption ignores the supplied identity -/

/-- Claim C10 counterexample: with a live stored session S and an
accepted token, an init supplying an empty name is rejected with a
visible error and a close instead of re-attaching, so the handshake
does not re-attach regardless of the supplied name and email. -/
theorem C10_empty_name_not_restored :
    (handleInit c10St (DOId.fresh 0) 1 ⟨"Alice", "a@b.c", none, "tok", some "S"⟩
        true 2000 "F" "T2").2 =
      [Emit.wsSend 1 (ServerMessage.ready "Session restored. Welcome back!" "S")] ∧
    (handleInit c10St (DOId.fresh 0) 1 ⟨"", "a@b.c", none, "tok", some "S"⟩
        true 2000 "F" "T2").2 =
      [Emit.wsSend 1 (ServerMessage.error "Missing required fields"),
       Emit.wsClose 1] ∧
    handleInit c10St (DOId.fresh 0) 1 ⟨"Alice", "a@b.c", none, "tok", some "S"⟩
        true 2000 "F" "T2" ≠
      handleInit c10St (DOId.fresh 0) 1 ⟨"", "a@b.c", none, "tok", some "S"⟩
        true 2000 "F" "T2" := by
  decide

/-- Claim C10 (amended): provided both init calls pass field validation
(non-empty name, syntactically valid email, accepted token), two inits
carrying the same live session id and differing only in name and email
produce identical results: the same restored session and the same
replayed history; the supplied identity is never compared against the
stored session. -/
theorem C10_resume_ignores_identity
    (st : ChatDOState) (selfId : DOId) (ws : Nat) (now : Nat)
    (fid tid sid n1 e1 n2 e2 : String) (p : Option String)
    (tok : String) (s : SessionState)
    (hn1 : n1 ≠ "") (hn2 : n2 ≠ "") (he1 : e1 ≠ "") (he2 : e2 ≠ "")
    (hv1 : isValidEmail e1 = true) (hv2 : isValidEmail e2 = true)
    (ht : tok ≠ "") (hne : sid ≠ "")
    (hst : st.storage.lookup ("session:" ++ sid) = some (StorageVal.sess s))
    (hgrace : now - s.lastActivity ≤ SESSION_TIMEOUT) :
    handleInit st selfId ws ⟨n1, e1, p, tok, some sid⟩ true now fid tid =
      handleInit st selfId ws ⟨n2, e2, p, tok, some sid⟩ true now fid tid := by
  have hres : restoreSession st ws sid now =
      some ({ st with
          sessions := setKey st.sessions ws { s with lastActivity := now }
          storage := setKey st.storage ("session:" ++ sid)
            (StorageVal.sess { s with lastActivity := now }) },
        Emit.wsSend ws (ServerMessage.ready "Session restored. Welcome back!"
            s.sessionId)
          :: s.messageHistory.map
              (fun m => Emit.wsSend ws (ServerMessage.message m))) := by
    simp [restoreSession, hst]
    omega
  have h1 : handleInit st selfId ws ⟨n1, e1, p, tok, some sid⟩ true now fid tid =
      ({ st with
          sessions := setKey st.sessions ws { s with lastActivity := now }
          storage := setKey st.storage ("session:" ++ sid)
            (StorageVal.sess { s with lastActivity := now }) },
       Emit.wsSend ws (ServerMessage.ready "Session restored. Welcome back!"
           s.sessionId)
         :: s.messageHistory.map
             (fun m => Emit.wsSend ws (ServerMessage.message m))) := by
    simp [handleInit, hn1, he1, hv1, ht, hne, hres]
  have h2 : handleInit st selfId ws ⟨n2, e2, p, tok, some sid⟩ true now fid tid =
      ({ st with
          sessions := setKey st.sessions ws { s with lastActivity := now }
          storage := setKey st.storage ("session:" ++ sid)
            (StorageVal.sess { s with lastActivity := now }) },
       Emit.wsSend ws (ServerMessage.ready "Session restored. Welcome back!"
           s.sessionId)
         :: s.messageHistory.map
             (fun m => Emit.wsSend ws (ServerMessage.message m))) := by
    simp [handleInit, hn2, he2, hv2, ht, hne, hres]
  rw [h1, h2]

/-- Claim C10 witness: two concrete validated inits with different
identities resuming the same live session give identical results. -/
theorem C10_resume_ignores_identity_witness :
    handleInit c10St (DOId.fresh 0) 1 ⟨"Alice", "a@b.c", none, "tok", some "S"⟩
        true 2000 "F" "T2" =
      handleInit c10St (DOId.fresh 0) 1 ⟨"Bob", "b@c.d", none, "tok", some "S"⟩
        true 2000 "F" "T2" := by
  exact C10_resume_ignores_identity c10St (DOId.fresh 0) 1 2000 "F" "T2" "S"
    "Alice" "a@b.c" "Bob" "b@c.d" none "tok" c10S0
    (by decide) (by decide) (by decide) (by decide) (by decide) (by decide)
    (by decide) (by decide) (by decide) (by decide)

/-! ## C3: bounded, insertion-ordered history -/

theorem takeLast_length_le {α : Type} (n : Nat) (l : List α) :
    (takeLast n l).length ≤ n := by
  simp [takeLast]
  omega

/-- Pushing through the 50-cap commutes with taking the last 50 of the
uncapped list. -/
theorem pushHistory_takeLast (acc : List StoredMessage) (m : StoredMessage) :
    pushHistory (takeLast MAX_HISTORY acc) m = takeLast MAX_HISTORY (acc ++ [m]) := by
  by_cases hn : acc.length ≤ MAX_HISTORY
  · have hta : takeLast MAX_HISTORY acc = acc := by
      simp [takeLast, (by omega : acc.length - MAX_HISTORY = 0)]
    rw [hta]
    by_cases h1 : acc.length + 1 ≤ MAX_HISTORY
    · have h2 : ¬ acc.length + 1 > MAX_HISTORY := by omega
      have h3 : acc.length + 1 - MAX_HISTORY = 0 := by omega
      simp [pushHistory, takeLast, h2, h3]
    · have h2 : acc.length + 1 > MAX_HISTORY := by omega
      simp [pushHistory, takeLast, h2]
  · push_neg at hn
    have hlen : (takeLast MAX_HISTORY acc).length = MAX_HISTORY := by
      simp [takeLast]
      omega
    have h2 : (takeLast MAX_HISTORY acc ++ [m]).length > MAX_HISTORY := by
      simp [hlen]
    simp only [pushHistory, takeLast, List.length_append, hlen,
      List.length_cons, List.length_nil, List.length_drop,
      List.drop_append_eq_append_drop, List.drop_drop]
    rw [if_pos (by omega :
      acc.length - (acc.length - MAX_HISTORY) + (0 + 1) > MAX_HISTORY)]
    congr 1
    · congr 1
      omega
    · congr 1
      omega

/-- The delivery loop updates the session attached at ws exactly by
appending the delivered message and touching lastActivity, when that
session owns the thread. -/
theorem deliverAgent_lookup (m : StoredMessage) (tid : String) (now : Nat)
    (sessions : List (Nat × SessionState)) (ws : Nat) (s : SessionState)
    (hl : sessions.lookup ws = some s) (ht : s.threadId = tid) :
    (deliverAgent m tid now sessions).1.lookup ws =
      some { s with
              messageHistory := pushHistory s.messageHistory m
              lastActivity := now } := by
  induction sessions with
  | nil => simp [List.lookup] at hl
  | cons kv rest ih =>
    rcases kv with ⟨w', s'⟩
    by_cases hw : ws = w'
    · subst hw
      have hs : s' = s := by simpa [List.lookup] using hl
      subst hs
      simp [deliverAgent, ht, List.lookup]
    · have hbw : (ws == w') = false := by simp [hw]
      have hl' : rest.lookup ws = some s := by
        simpa [List.lookup, hbw] using hl
      by_cases htt : s'.threadId = tid
      · simp [deliverAgent, htt, List.lookup, hbw, ih hl']
      · simp [deliverAgent, htt, List.lookup, hbw, ih hl']

/-- Invariant of runs of submit and deliverRemote: the history of the
attached session is always the last 50 of the successfully applied
messages so far. -/
theorem runSessionOps_history (ops : List SessionOp) :
    ∀ (st : ChatDOState) (ws : Nat) (tid name : String)
      (s : SessionState) (acc : List StoredMessage),
      st.sessions.lookup ws = some s →
      s.name = name → s.threadId = tid →
      s.messageHistory = takeLast MAX_HISTORY acc →
      ∃ sf : SessionState,
        (runSessionOps st ws tid ops).1.sessions.lookup ws = some sf ∧
        sf.name = name ∧ sf.threadId = tid ∧
        sf.messageHistory =
          takeLast MAX_HISTORY
            (acc ++ appliedMsgs name ops (runSessionOps st ws tid ops).2) := by
  induction ops with
  | nil =>
    intro st ws tid name s acc hl hn ht hh
    refine ⟨s, ?_⟩
    simpa [runSessionOps, appliedMsgs] using ⟨hl, hn, ht, hh⟩
  | cons op ops ih =>
    intro st ws tid name s acc hl hn ht hh
    cases op with
    | submit text now =>
      by_cases he : text = ""
      · have hr : handleUserMessage st ws text now =
            (st, [Emit.wsSend ws (ServerMessage.error "Invalid message")]) := by
          simp [handleUserMessage, hl, he]
        obtain ⟨sf, h1, h2, h3, h4⟩ := ih st ws tid name s acc hl hn ht hh
        refine ⟨sf, ?_, h2, h3, ?_⟩
        · simpa [runSessionOps, hr] using h1
        · simpa [runSessionOps, hr, appliedMsgs, hasError] using h4
      · by_cases hlong : text.length > MAX_MESSAGE_LENGTH
        · have hr : handleUserMessage st ws text now =
              (st, [Emit.wsSend ws (ServerMessage.error
                "Message too long (max 2000 characters)")]) := by
            simp [handleUserMessage, hl, he, hlong]
          obtain ⟨sf, h1, h2, h3, h4⟩ := ih st ws tid name s acc hl hn ht hh
          refine ⟨sf, ?_, h2, h3, ?_⟩
          · simpa [runSessionOps, hr] using h1
          · simpa [runSessionOps, hr, appliedMsgs, hasError] using h4
        · cases hb : (checkRateLimit st.rateLimits s.sessionId now).1 with
          | false =>
            have hr : handleUserMessage st ws text now =
                ({ st with
                    rateLimits := (checkRateLimit st.rateLimits s.sessionId now).2 },
                 [Emit.wsSend ws (ServerMessage.error
                   "Rate limit exceeded. Please slow down.")]) := by
              simp [handleUserMessage, hl, he, hlong, hb]
            obtain ⟨sf, h1, h2, h3, h4⟩ :=
              ih { st with
                    rateLimits := (checkRateLimit st.rateLimits s.sessionId now).2 }
                ws tid name s acc hl hn ht hh
            refine ⟨sf, ?_, h2, h3, ?_⟩
            · simpa [runSessionOps, hr] using h1
            · simpa [runSessionOps, hr, appliedMsgs, hasError] using h4
          | true =>
            obtain ⟨m, hm⟩ : ∃ m : StoredMessage, m = ⟨s.name, text, now⟩ :=
              ⟨_, rfl⟩
            have hr : handleUserMessage st ws text now =
                ({ st with
                    rateLimits := (checkRateLimit st.rateLimits s.sessionId now).2
                    sessions := setKey st.sessions ws
                      { s with
                          messageCount := s.messageCount + 1
                          lastActivity := now
                          messageHistory := pushHistory s.messageHistory m }
                    storage := setKey st.storage ("session:" ++ s.sessionId)
                      (StorageVal.sess
                        { s with
                            messageCount := s.messageCount + 1
                            lastActivity := now
                            messageHistory := pushHistory s.messageHistory m }) },
                 [Emit.discordSend s.threadId
                   ("**" ++ s.name ++ ":** " ++ text)]) := by
              rw [hm]
              simp [handleUserMessage, hl, he, hlong, hb]
            have hstep : (handleUserMessage st ws text now).1.sessions.lookup ws =
                some { s with
                    messageCount := s.messageCount + 1
                    lastActivity := now
                    messageHistory := pushHistory s.messageHistory m } := by
              rw [hr]
              exact lookup_setKey_self _ _ _
            have hemits : (handleUserMessage st ws text now).2 =
                [Emit.discordSend s.threadId ("**" ++ s.name ++ ":** " ++ text)] := by
              rw [hr]
            have hm2 : m = ⟨name, text, now⟩ := by rw [hm, hn]
            have hpush : pushHistory s.messageHistory m =
                takeLast MAX_HISTORY (acc ++ [m]) := by
              rw [hh, pushHistory_takeLast]
            obtain ⟨sf, h1, h2, h3, h4⟩ :=
              ih (handleUserMessage st ws text now).1 ws tid name
                { s with
                    messageCount := s.messageCount + 1
                    lastActivity := now
                    messageHistory := pushHistory s.messageHistory m }
                (acc ++ [m]) hstep hn ht hpush
            refine ⟨sf, ?_, h2, h3, ?_⟩
            · simpa [runSessionOps] using h1
            · rw [hm2, List.append_assoc] at h4
              simpa [runSessionOps, hemits, appliedMsgs, hasError] using h4
    | deliverRemote text author now =>
      obtain ⟨m, hm⟩ : ∃ m : StoredMessage, m = ⟨author, text, now⟩ := ⟨_, rfl⟩
      have hlook : (deliverAgent m tid now st.sessions).1.lookup ws =
          some { s with
                  messageHistory := pushHistory s.messageHistory m
                  lastActivity := now } :=
        deliverAgent_lookup m tid now st.sessions ws s hl ht
      have hpush : pushHistory s.messageHistory m =
          takeLast MAX_HISTORY (acc ++ [m]) := by
        rw [hh, pushHistory_takeLast]
      obtain ⟨sf, h1, h2, h3, h4⟩ :=
        ih { st with
              sessions := (deliverAgent m tid now st.sessions).1
              storage := (deliverAgent m tid now st.sessions).2.1.foldl
                (fun sto kv => setKey sto kv.1 (StorageVal.sess kv.2)) st.storage }
          ws tid name
          { s with
              messageHistory := pushHistory s.messageHistory m
              lastActivity := now }
          (acc ++ [m]) hlook hn ht hpush
      refine ⟨sf, ?_, h2, h3, ?_⟩
      · simpa [runSessionOps, receiveAgentMessageLocal, hm] using h1
      · rw [List.append_assoc] at h4
        simpa [runSessionOps, receiveAgentMessageLocal, appliedMsgs, hm] using h4

/-- Claim C3: over every sequence of submit and deliverRemote
operations against a fresh session, the history of the session is
always exactly the last 50 successfully applied messages in call order
(hence insertion-ordered) and never longer than 50. -/
theorem C3_history_bounded_suffix (ops : List SessionOp) (ws : Nat)
    (sid email name tid : String) (t0 : Nat) :
    ∃ sf : SessionState,
      (runSessionOps (c3Start ws sid email name tid t0) ws tid
          ops).1.sessions.lookup ws = some sf ∧
      sf.messageHistory =
        takeLast MAX_HISTORY
          (appliedMsgs name ops
            (runSessionOps (c3Start ws sid email name tid t0) ws tid ops).2) ∧
      sf.messageHistory.length ≤ MAX_HISTORY := by
  obtain ⟨sf, h1, h2, h3, h4⟩ :=
    runSessionOps_history ops (c3Start ws sid email name tid t0) ws tid name
      ⟨sid, email, name, tid, t0, t0, 0, []⟩ []
      (by simp [c3Start, List.lookup]) rfl rfl (by simp [takeLast])
  refine ⟨sf, h1, by simpa using h4, ?_⟩
  rw [show sf.messageHistory =
    takeLast MAX_HISTORY
      (appliedMsgs name ops
        (runSessionOps (c3Start ws sid email name tid t0) ws tid ops).2)
    from by simpa using h4]
  exact takeLast_length_le _ _

/-! ## C8: thread reuse and the identity-summary message -/

/-- A found thread matches the email by title substring and is younger
than the day bound, and belongs to the searched listing. -/
theorem firstMatchThread_sound (email : String) (now maxDays : Nat) :
    ∀ (l : List DThread) (t : DThread),
      firstMatchThread email now maxDays l = some t →
      strIncludes t.name email = true ∧ isThreadRecent now t.id maxDays = true ∧
        t ∈ l := by
  intro l
  induction l with
  | nil =>
    intro t h
    simp [firstMatchThread] at h
  | cons a rest ih =>
    intro t h
    by_cases hc : strIncludes a.name email && isThreadRecent now a.id maxDays
    · rw [firstMatchThread, if_pos hc] at h
      cases h
      rcases (Bool.and_eq_true _ _).mp hc with ⟨h1, h2⟩
      exact ⟨h1, h2, by simp⟩
    · rw [firstMatchThread, if_neg hc] at h
      obtain ⟨h1, h2, h3⟩ := ih t h
      exact ⟨h1, h2, List.mem_cons_of_mem _ h3⟩

/-- When every listed thread fails the title match or the age bound,
the search finds nothing. -/
theorem firstMatchThread_none (email : String) (now maxDays : Nat) :
    ∀ l : List DThread,
      (∀ t, t ∈ l →
        strIncludes t.name email = false ∨
          isThreadRecent now t.id maxDays = false) →
      firstMatchThread email now maxDays l = none := by
  intro l
  induction l with
  | nil =>
    intro _
    rfl
  | cons a rest ih =>
    intro hall
    have hcond : (strIncludes a.name email && isThreadRecent now a.id maxDays)
        = false := by
      rcases hall a (by simp) with h | h <;> simp [h]
    rw [firstMatchThread, if_neg (by simp [hcond])]
    exact ih fun t ht => hall t (List.mem_cons_of_mem _ ht)

/-- Claim C8 counterexample: with a young matching thread present, the
handshake reuses the thread (id 42, nothing created) yet still emits
the identity-summary initial message; the claim says that message is
skipped in the reuse case. -/
theorem C8_initial_message_reemitted :
    createSessionDiscord ⟨[c8Thread], []⟩ "a@b.c" "Alice" "/home"
        (DISCORD_EPOCH + 1000) 999 =
      (42, [DiscordEmit.initialMsg 42 "Alice" "a@b.c" "/home"]) ∧
    DiscordEmit.initialMsg 42 "Alice" "a@b.c" "/home" ∈
      (createSessionDiscord ⟨[c8Thread], []⟩ "a@b.c" "Alice" "/home"
        (DISCORD_EPOCH + 1000) 999).2 := by
  decide

/-- Claim C8 (amended): before creating an external thread the
handshake reuses the first existing thread whose title contains the
email (case-sensitive substring) and which is younger than 90 days, so
two visitors with the same email within 90 days get the same thread id,
while with no young matching thread (for instance when it is 91 days
old) a new thread is created under the freshly supplied id; the
identity-summary initial message, however, is emitted on every
new-session handshake, in the reuse case as well. -/
theorem C8_thread_reuse_with_initial_message :
    (∀ (env : ThreadsEnv) (email name : String) (now fid : Nat) (t : DThread),
      findThreadByEmail env email now = some t →
      (findOrCreateThread env email name now fid).1 = t.id ∧
      (∀ title, DiscordEmit.createThread title ∉
        (findOrCreateThread env email name now fid).2) ∧
      strIncludes t.name email = true ∧ isThreadRecent now t.id 90 = true ∧
      (t ∈ env.active ∨ t ∈ env.archivedThreads)) ∧
    (∀ (env : ThreadsEnv) (email name : String) (now fid : Nat),
      findThreadByEmail env email now = none →
      findOrCreateThread env email name now fid =
        (fid, [DiscordEmit.createThread
          ("Support: " ++ name ++ " - " ++ email)])) ∧
    (∀ (env : ThreadsEnv) (email : String) (now : Nat),
      (∀ t, (t ∈ env.active ∨ t ∈ env.archivedThreads) →
        strIncludes t.name email = false ∨ isThreadRecent now t.id 90 = false) →
      findThreadByEmail env email now = none) ∧
    (∀ (env : ThreadsEnv) (email name page : String) (now fid : Nat),
      DiscordEmit.initialMsg (createSessionDiscord env email name page now fid).1
          name email page ∈
        (createSessionDiscord env email name page now fid).2) ∧
    (createSessionDiscord ⟨[c8Thread], []⟩ "a@b.c" "Bob" "/pricing"
        (DISCORD_EPOCH + msPerDay) 999).1 = 42 ∧
    (createSessionDiscord ⟨[c8Thread], []⟩ "a@b.c" "Bob" "/pricing"
        (DISCORD_EPOCH + 91 * msPerDay) 999).1 = 999 := by
  refine ⟨?_, ?_, ?_, ?_, by decide, by decide⟩
  · intro env email name now fid t hfind
    have hsound : strIncludes t.name email = true ∧
        isThreadRecent now t.id 90 = true ∧
        (t ∈ env.active ∨ t ∈ env.archivedThreads) := by
      rw [findThreadByEmail] at hfind
      cases hact : firstMatchThread email now 90 env.active with
      | some t2 =>
        rw [hact] at hfind
        cases hfind
        obtain ⟨h1, h2, h3⟩ := firstMatchThread_sound email now 90 env.active t hact
        exact ⟨h1, h2, Or.inl h3⟩
      | none =>
        rw [hact] at hfind
        obtain ⟨h1, h2, h3⟩ :=
          firstMatchThread_sound email now 90 env.archivedThreads t hfind
        exact ⟨h1, h2, Or.inr h3⟩
    refine ⟨by simp [findOrCreateThread, hfind], ?_, hsound⟩
    intro title
    simp only [findOrCreateThread, hfind]
    by_cases ha : t.archived <;> simp [ha]
  · intro env email name now fid hnone
    simp [findOrCreateThread, hnone]
  · intro env email now hall
    rw [findThreadByEmail,
      firstMatchThread_none email now 90 env.active
        (fun t ht => hall t (Or.inl ht)),
      firstMatchThread_none email now 90 env.archivedThreads
        (fun t ht => hall t (Or.inr ht))]
  · intro env email name page now fid
    simp [createSessionDiscord]

/-- Claim C8 witness: the young matching thread of the scenario is
found and reused one day after its creation. -/
theorem C8_thread_reuse_with_initial_message_witness :
    (findOrCreateThread ⟨[c8Thread], []⟩ "a@b.c" "Bob"
        (DISCORD_EPOCH + msPerDay) 999).1 = c8Thread.id := by
  exact (C8_thread_reuse_with_initial_message.1 ⟨[c8Thread], []⟩ "a@b.c" "Bob"
    (DISCORD_EPOCH + msPerDay) 999 c8Thread (by decide)).1

end DiscoFlare
